import Mathlib

/-!
Verification of the liveness-verification engine in
src/Backend/anti_spoof_detection.py, together with the adaptive
frame-sampling choosers of src/Backend/blink_detection.py and
src/Backend/config.py.

Modelling conventions.  Wall-clock instants (Python time.time()) are
rationals passed explicitly to each operation; the challenge drawn by
random.choice(CHALLENGE_TYPES) is an explicit argument; the texture score
that verify_user_liveness obtains from detect_photo_spoof on the cropped
face region is carried as an explicit rational field of the frame input
(the image itself is external data).  detect_photo_spoof is embedded over
the reals as a function of the primitive image statistics the cv2 calls
extract from the region: the pixel count, the variance of the Laplacian,
the Canny edge density, and the 256-bin intensity histogram.  Python float
arithmetic is modelled by exact rational/real arithmetic; Python `//` on
ints is Int.fdiv (floor division); `max(0, n - 1)` keeps the counter an
integer with an explicit floor.
-/

namespace AntiSpoof

/-! ### Constants from src/Backend/config.py -/

/-- config.py line 25: `CHALLENGE_TIMEOUT = 5` (seconds per challenge). -/
def CHALLENGE_TIMEOUT : ℚ := 5

/-- config.py line 35: `MOTION_THRESHOLD = 12` (pixels). -/
def MOTION_THRESHOLD : Int := 12

/-- config.py line 37: `LIVENESS_SCORE_THRESHOLD = 0.4`. -/
def LIVENESS_SCORE_THRESHOLD : ℚ := 4/10

/-- config.py line 38: `CONSECUTIVE_REAL_FRAMES = 8`. -/
def CONSECUTIVE_REAL_FRAMES : Int := 8

/-- config.py lines 41-46: the four members of `CHALLENGE_TYPES`. -/
inductive Challenge where
  | TURN_LEFT
  | TURN_RIGHT
  | MOVE_CLOSER
  | NOD_HEAD
deriving DecidableEq

/-! ### Per-user state (anti_spoof_detection.py, get_user_state) -/

/-- One entry of `previous_positions` / the `baseline_position`:
anti_spoof_detection.py line 96 builds
`{'x': center_x, 'y': center_y, 'size': face_size, 'time': time.time()}`. -/
structure Pos where
  x : Int
  y : Int
  size : Int
  t : ℚ
deriving DecidableEq

/-- The per-user dictionary created by `get_user_state`
(anti_spoof_detection.py lines 19-29). -/
structure UserState where
  challenge_active : Bool
  challenge_start_time : ℚ
  current_challenge : Option Challenge
  previous_positions : List Pos
  real_frame_count : Int
  verified : Bool
  last_verification_time : ℚ
  baseline_position : Option Pos
  movement_detected : Bool
deriving DecidableEq

/-- The fresh state `get_user_state` installs for an unseen user id
(anti_spoof_detection.py lines 19-29). -/
def init_state : UserState where
  challenge_active := false
  challenge_start_time := 0
  current_challenge := none
  previous_positions := []
  real_frame_count := 0
  verified := false
  last_verification_time := 0
  baseline_position := none
  movement_detected := false

/-- A face bounding box as indexed in analyze_movement: the Python code reads
`face_box[0] .. face_box[3]` (anti_spoof_detection.py lines 92-94). -/
structure FaceBox where
  b0 : Int
  b1 : Int
  b2 : Int
  b3 : Int
deriving DecidableEq

/-- The external inputs of one `verify_user_liveness` call: the clock value,
the face box, and the texture score `detect_photo_spoof(face_region)`
returns on the frame's cropped face region (the `frame` parameter of the
Python function is never read in its body). -/
structure FrameInput where
  now : ℚ
  fb : FaceBox
  tex : ℚ
deriving DecidableEq

/-- get_challenge_text (anti_spoof_detection.py lines 51-59): `text_map.get`
falls back to the default text when the key is absent (`None`). -/
def get_challenge_text : Option Challenge → String
  | some .TURN_LEFT => "Turn your head LEFT"
  | some .TURN_RIGHT => "Turn your head RIGHT"
  | some .MOVE_CLOSER => "Move CLOSER to camera"
  | some .NOD_HEAD => "NOD your head up/down"
  | none => "Follow the instruction"

/-- start_challenge_for_user (anti_spoof_detection.py lines 32-49).  `now` is
the value of `time.time()` during the call and `pick` the challenge
`random.choice(CHALLENGE_TYPES)` draws.  Returns the Python return value
(`None` or the instruction text) paired with the updated state. -/
def start_challenge_for_user (st : UserState) (now : ℚ) (pick : Challenge) :
    Option String × UserState :=
  if st.verified = true ∧ now - st.last_verification_time < 30 then
    (none, st)
  else
    (some (get_challenge_text (some pick)),
     { challenge_active := true
       challenge_start_time := now
       current_challenge := some pick
       previous_positions := []
       real_frame_count := 0
       verified := false
       last_verification_time := st.last_verification_time
       baseline_position := none
       movement_detected := false })

/-- Python `max` over a nonempty int list (the `[]` default is never reached
by the guarded call sites). -/
def listMax : List Int → Int
  | [] => 0
  | x :: xs => xs.foldl max x

/-- Python `min` over a nonempty int list. -/
def listMin : List Int → Int
  | [] => 0
  | x :: xs => xs.foldl min x

/-- analyze_movement (anti_spoof_detection.py lines 87-134).  Mirrors the
source exactly: the first sighting seeds the baseline and the history and
returns False; later frames append the current position, trim the history
to 10 entries (one `pop(0)`), return False while the trimmed history is
shorter than 3, and otherwise decide the current challenge against the
baseline.  The two early returns leave `movement_detected` untouched, as
in the source (line 133 is only reached on the judged path).  The float
literal `1.10` of the MOVE_CLOSER branch is taken at its decimal value
11/10. -/
def analyze_movement (st : UserState) (fb : FaceBox) (now : ℚ) :
    Bool × UserState :=
  let center_x := (fb.b0 + fb.b2).fdiv 2
  let center_y := (fb.b1 + fb.b3).fdiv 2
  let face_size := (fb.b2 - fb.b0) * (fb.b3 - fb.b1)
  let current_pos : Pos := ⟨center_x, center_y, face_size, now⟩
  match st.baseline_position with
  | none =>
      (false, { st with baseline_position := some current_pos
                        previous_positions := [current_pos] })
  | some baseline =>
      let appended := st.previous_positions ++ [current_pos]
      let positions := if appended.length > 10 then appended.tail else appended
      if positions.length < 3 then
        (false, { st with previous_positions := positions })
      else
        let movement_detected :=
          match st.current_challenge with
          | some .TURN_LEFT => decide (center_x < baseline.x - MOTION_THRESHOLD)
          | some .TURN_RIGHT => decide (center_x > baseline.x + MOTION_THRESHOLD)
          | some .MOVE_CLOSER => decide ((face_size : ℚ) > (baseline.size : ℚ) * (11/10))
          | some .NOD_HEAD =>
              let recent_y := (positions.drop (positions.length - 5)).map Pos.y
              decide (recent_y.length ≥ 3) &&
                decide (listMax recent_y - listMin recent_y > MOTION_THRESHOLD)
          | none => false
        (movement_detected,
         { st with previous_positions := positions
                   movement_detected := movement_detected })

/-- Round-half-even at integer precision, the rounding Python's `"%.0f"`
format applies to the progress percentage. -/
def roundHalfEven (q : ℚ) : Int :=
  let f := ⌊q⌋
  if q - f < 1/2 then f
  else if 1/2 < q - f then f + 1
  else if f % 2 = 0 then f else f + 1

/-- The triple `verify_user_liveness` returns: `(verified, status, score)`. -/
structure VerifyResult where
  verified : Bool
  status : String
  score : ℚ
deriving DecidableEq

/-- verify_user_liveness (anti_spoof_detection.py lines 136-178).  `f.now`
stands for the `time.time()` reads of the call, `f.tex` for the value of
`detect_photo_spoof(face_region)` on the frame's face region.  The float
weights 0.6 / 0.4 and the threshold 0.4 are taken at their decimal
values. -/
def verify_user_liveness (st : UserState) (f : FrameInput) :
    VerifyResult × UserState :=
  if st.challenge_active = false then
    (⟨false, "No active challenge", 0⟩, st)
  else if f.now - st.challenge_start_time > CHALLENGE_TIMEOUT then
    (⟨false, "Challenge timeout - try again", 0⟩,
     { st with challenge_active := false })
  else
    let texture_score := f.tex
    let mres := analyze_movement st f.fb f.now
    let movement_valid := mres.1
    let st1 := mres.2
    let movement_score : ℚ := if movement_valid = true then 1 else 0
    let combined_score := texture_score * (6/10) + movement_score * (4/10)
    let st2 :=
      if combined_score ≥ LIVENESS_SCORE_THRESHOLD then
        { st1 with real_frame_count := st1.real_frame_count + 1 }
      else
        { st1 with real_frame_count := max 0 (st1.real_frame_count - 1) }
    if st2.real_frame_count ≥ CONSECUTIVE_REAL_FRAMES ∧ movement_valid = true then
      (⟨true, "Verification successful!", combined_score⟩,
       { st2 with verified := true
                  challenge_active := false
                  last_verification_time := f.now })
    else
      let progress :=
        min 100 ((st2.real_frame_count : ℚ) / (CONSECUTIVE_REAL_FRAMES : ℚ) * 100)
      (⟨false,
        get_challenge_text st.current_challenge ++ " (" ++
          toString (roundHalfEven progress) ++ "%)",
        combined_score⟩, st2)

/-- is_user_verified (anti_spoof_detection.py lines 180-194): the boolean the
call returns paired with the state it leaves behind (the expired-flag
clearing of lines 191-192 is the only mutation). -/
def is_user_verified (st : UserState) (now : ℚ) : Bool × UserState :=
  if st.verified = true ∧ now - st.last_verification_time < 60 then
    (true, st)
  else if st.verified = true then
    (false, { st with verified := false })
  else
    (false, st)

/-- reset_user_verification (anti_spoof_detection.py lines 213-217). -/
def reset_user_verification (st : UserState) : UserState :=
  { st with verified := false, challenge_active := false }

/-! ### Derived forms used to state the claims -/

/-- The state after one `verify_user_liveness` call. -/
def eval_state (st : UserState) (f : FrameInput) : UserState :=
  (verify_user_liveness st f).2

/-- The returned triple of one `verify_user_liveness` call. -/
def eval_result (st : UserState) (f : FrameInput) : VerifyResult :=
  (verify_user_liveness st f).1

/-- The state after a sequence of `verify_user_liveness` calls. -/
def run_frames (st : UserState) (fs : List FrameInput) : UserState :=
  fs.foldl eval_state st

/-- The state `start_challenge_for_user` leaves behind. -/
def start_state (st : UserState) (now : ℚ) (pick : Challenge) : UserState :=
  (start_challenge_for_user st now pick).2

/-- The movement flag `analyze_movement` computes on the frame. -/
def movement_of (st : UserState) (f : FrameInput) : Bool :=
  (analyze_movement st f.fb f.now).1

/-- The combined liveness score of the frame
(anti_spoof_detection.py line 157). -/
def combined_of (st : UserState) (f : FrameInput) : ℚ :=
  f.tex * (6/10) + (if movement_of st f = true then (1 : ℚ) else 0) * (4/10)

/-- The value of `real_frame_count` after the counter update of lines
159-163, on a frame that reaches them. -/
def rfc_after (st : UserState) (f : FrameInput) : Int :=
  if combined_of st f ≥ LIVENESS_SCORE_THRESHOLD then st.real_frame_count + 1
  else max 0 (st.real_frame_count - 1)

/-- One public operation on a user's state, for reachability statements. -/
inductive Op where
  | start (now : ℚ) (pick : Challenge)
  | eval (f : FrameInput)
  | isVer (now : ℚ)
  | reset

/-- The state transition of one operation (each public entry point's effect
on the user's dictionary entry). -/
def apply_op (st : UserState) : Op → UserState
  | .start now pick => (start_challenge_for_user st now pick).2
  | .eval f => eval_state st f
  | .isVer now => (is_user_verified st now).2
  | .reset => reset_user_verification st

/-- The state reached from a fresh user entry by a call sequence. -/
def run_ops (ops : List Op) : UserState := ops.foldl apply_op init_state

/-! ### detect_photo_spoof (anti_spoof_detection.py lines 61-85)

The cv2 primitives are abstracted as the statistics they return on the
grayscale region: `size` is `face_region.size` (the pixel count of the
crop), `lapVar` the variance of the Laplacian (line 70, always
nonnegative), `edgeDensity` the fraction of Canny edge pixels (line 75, a
value in [0,1]), and `hist` the 256-bin intensity histogram (line 79,
componentwise nonnegative with positive total for a nonempty region).  The
score arithmetic of lines 63-85 is embedded exactly, with `np.log2` as the
real base-2 logarithm and the float regularizer `1e-7` at its decimal
value. -/

/-- The histogram-entropy expression of anti_spoof_detection.py line 80:
`-np.sum((hist / hist.sum()) * np.log2((hist / hist.sum()) + 1e-7))`. -/
noncomputable def hist_entropy (hist : Fin 256 → ℝ) : ℝ :=
  -∑ i, (hist i / ∑ j, hist j) *
      Real.logb 2 (hist i / ∑ j, hist j + 1/10000000)

/-- detect_photo_spoof (anti_spoof_detection.py lines 61-85) as a function
of the primitive statistics: the empty-region guard of line 63, then
`texture_score * 0.5 + edge_score * 0.3 + entropy_score * 0.2` with
`texture_score = min(1.0, laplacian_var / 200.0)` (line 71),
`edge_score = 1.0 - min(1.0, edge_density * 8)` (line 76) and
`entropy_score = min(1.0, hist_entropy / 8.0)` (line 81), written out. -/
noncomputable def detect_photo_spoof (size : ℕ) (lapVar edgeDensity : ℝ)
    (hist : Fin 256 → ℝ) : ℝ :=
  if size = 0 then 0
  else
    min 1 (lapVar / 200) * (5/10) + (1 - min 1 (edgeDensity * 8)) * (3/10) +
      min 1 (hist_entropy hist / 8) * (2/10)

/-- The primitive statistics of an all-zero (all-black) 100 x 100 region:
every pixel lands in histogram bin 0, a constant image has Laplacian 0
everywhere (variance 0) and no Canny edges (density 0). -/
def all_black_hist : Fin 256 → ℝ := fun i => if i = 0 then 10000 else 0

/-! ### Adaptive sampling frequencies

blink_detection.py lines 182-190 choose, inside the frame loop, the
detection and verification sampling intervals from the currently measured
FPS; the loop then rate-limits by `counter % freq == 0` (lines 194 and
308).  config.py lines 130-153 define get_performance_settings, whose
frequencies go the other way; that function has no caller anywhere in the
repository. -/

/-- The in-loop adaptive chooser of process_frame (blink_detection.py lines
182-190): `(face_detect_freq, verify_freq)` from the measured FPS. -/
def process_frame_adaptive_freqs (current_fps : ℚ) : Int × Int :=
  if current_fps > 30 then (6, 4)
  else if current_fps > 20 then (5, 3)
  else (4, 2)

/-- The settings dictionary get_performance_settings builds
(config.py lines 130-153). -/
structure PerfSettings where
  face_detection_freq : Int
  verification_freq : Int
  processing_resolution : Int × Int
  use_optimization : Bool
deriving DecidableEq

/-- config.py line 110: `MIN_ACCEPTABLE_FPS = 15`. -/
def MIN_ACCEPTABLE_FPS : ℚ := 15

/-- get_performance_settings (config.py lines 130-153); the default branch
inlines FACE_DETECTION_FREQUENCY = 5, VERIFICATION_FREQUENCY = 3,
PROCESSING_RESOLUTION = (480, 360), ENABLE_OPENCV_OPTIMIZATIONS = True
(config.py lines 50-51, 64, 91).  Defined but never called in the
repository. -/
def get_performance_settings (current_fps : ℚ) : PerfSettings :=
  if current_fps < MIN_ACCEPTABLE_FPS then ⟨8, 6, (320, 240), true⟩
  else if current_fps > 25 then ⟨3, 2, (480, 360), false⟩
  else ⟨5, 3, (480, 360), true⟩

/-! ### Concrete inputs used by the witness statements -/

/-- A frame at clock 1 (inside the 5s timeout) whose face box has centroid
x = 300 (equal to the seeded baseline, so TURN_LEFT movement stays
unsatisfied) and texture score 0.7 (combined score 0.42 without
movement). -/
def wit_frame : FrameInput := ⟨1, ⟨280, 0, 320, 40⟩, 7/10⟩

/-- Eight copies of the frame above. -/
def wit_frames : List FrameInput :=
  [wit_frame, wit_frame, wit_frame, wit_frame,
   wit_frame, wit_frame, wit_frame, wit_frame]

/-- The position the witness frame records: centroid (300, 20), box area
1600, at clock 1. -/
def wit_pos : Pos := ⟨300, 20, 1600, 1⟩

/-- The state after a fresh TURN_LEFT challenge at time 0 followed by `k`
witness frames: the counter has climbed to `k`, the history holds `k`
copies of the position, and the baseline is seeded from the first frame. -/
def wit_state (k : ℕ) : UserState where
  challenge_active := true
  challenge_start_time := 0
  current_challenge := some .TURN_LEFT
  previous_positions := List.replicate k wit_pos
  real_frame_count := (k : Int)
  verified := false
  last_verification_time := 0
  baseline_position := if k = 0 then none else some wit_pos
  movement_detected := false

/-- A state with an active TURN_LEFT challenge, a baseline at x = 300 and
two stored positions (so the judged frame sees three history entries). -/
def wit_turn_left_state : UserState :=
  { init_state with
      challenge_active := true
      current_challenge := some .TURN_LEFT
      baseline_position := some ⟨300, 20, 1600, 0⟩
      previous_positions := [⟨300, 20, 1600, 0⟩, ⟨300, 20, 1600, 1⟩] }

/-! ## Shared lemmas -/

/-- analyze_movement only writes `previous_positions`, `baseline_position`
and `movement_detected`: the challenge bookkeeping fields survive it. -/
theorem analyze_movement_preserves (st : UserState) (fb : FaceBox) (now : ℚ) :
    ((analyze_movement st fb now).2).challenge_active = st.challenge_active ∧
    ((analyze_movement st fb now).2).challenge_start_time = st.challenge_start_time ∧
    ((analyze_movement st fb now).2).current_challenge = st.current_challenge ∧
    ((analyze_movement st fb now).2).real_frame_count = st.real_frame_count ∧
    ((analyze_movement st fb now).2).verified = st.verified ∧
    ((analyze_movement st fb now).2).last_verification_time = st.last_verification_time := by
  cases hb : st.baseline_position <;>
    simp only [analyze_movement, hb] <;>
    (try split_ifs) <;> simp

/-- verify_user_liveness with no active challenge: the line 141-142 early
return. -/
theorem verify_inactive_eq (st : UserState) (f : FrameInput)
    (ha : st.challenge_active = false) :
    verify_user_liveness st f = (⟨false, "No active challenge", 0⟩, st) := by
  simp [verify_user_liveness, ha]

/-- verify_user_liveness on a timed-out challenge: the line 145-147 early
return deactivates the challenge and touches nothing else. -/
theorem verify_timeout_eq (st : UserState) (f : FrameInput)
    (ha : st.challenge_active = true)
    (ht : CHALLENGE_TIMEOUT < f.now - st.challenge_start_time) :
    verify_user_liveness st f =
      (⟨false, "Challenge timeout - try again", 0⟩,
       { st with challenge_active := false }) := by
  simp [verify_user_liveness, ha, ht]

/-- The state a processed (active, in-time) frame leaves behind, split on
whether the line 166 verification condition fires. -/
theorem eval_state_active_eq (st : UserState) (f : FrameInput)
    (ha : st.challenge_active = true)
    (ht : f.now - st.challenge_start_time ≤ CHALLENGE_TIMEOUT) :
    eval_state st f =
      if CONSECUTIVE_REAL_FRAMES ≤ rfc_after st f ∧ movement_of st f = true then
        { (analyze_movement st f.fb f.now).2 with
            real_frame_count := rfc_after st f
            verified := true
            challenge_active := false
            last_verification_time := f.now }
      else
        { (analyze_movement st f.fb f.now).2 with
            real_frame_count := rfc_after st f } := by
  have ht2 : ¬(CHALLENGE_TIMEOUT < f.now - st.challenge_start_time) := not_lt.mpr ht
  have hrfc := (analyze_movement_preserves st f.fb f.now).2.2.2.1
  simp only [eval_state, verify_user_liveness, ha, ht2, Bool.true_eq_false, if_false,
    ite_false, ite_true, rfc_after, movement_of, combined_of, ge_iff_le]
  split_ifs with h1 h2 h3 <;> simp_all [hrfc]

/-- The triple a processed (active, in-time) frame returns, split on the
line 166 verification condition. -/
theorem eval_result_active_eq (st : UserState) (f : FrameInput)
    (ha : st.challenge_active = true)
    (ht : f.now - st.challenge_start_time ≤ CHALLENGE_TIMEOUT) :
    eval_result st f =
      if CONSECUTIVE_REAL_FRAMES ≤ rfc_after st f ∧ movement_of st f = true then
        ⟨true, "Verification successful!", combined_of st f⟩
      else
        ⟨false,
         get_challenge_text st.current_challenge ++ " (" ++
           toString (roundHalfEven
             (min 100 ((rfc_after st f : ℚ) / (CONSECUTIVE_REAL_FRAMES : ℚ) * 100))) ++
           "%)",
         combined_of st f⟩ := by
  have ht2 : ¬(CHALLENGE_TIMEOUT < f.now - st.challenge_start_time) := not_lt.mpr ht
  have hrfc := (analyze_movement_preserves st f.fb f.now).2.2.2.1
  simp only [eval_result, verify_user_liveness, ha, ht2, Bool.true_eq_false, if_false,
    ite_false, ite_true, rfc_after, movement_of, combined_of, ge_iff_le]
  split_ifs with h1 h2 h3 <;> simp_all [hrfc]

/-- A verify_user_liveness call reports verified exactly when the challenge
is active, within the timeout, the updated counter has reached
CONSECUTIVE_REAL_FRAMES, and the frame's own movement flag is set. -/
theorem eval_verified_iff (st : UserState) (f : FrameInput) :
    (eval_result st f).verified = true ↔
      (st.challenge_active = true ∧
       f.now - st.challenge_start_time ≤ CHALLENGE_TIMEOUT ∧
       CONSECUTIVE_REAL_FRAMES ≤ rfc_after st f ∧
       movement_of st f = true) := by
  by_cases ha : st.challenge_active = true
  · by_cases ht : f.now - st.challenge_start_time ≤ CHALLENGE_TIMEOUT
    · rw [eval_result_active_eq st f ha ht]
      split_ifs with h <;> simp_all
    · have h3 := verify_timeout_eq st f ha (not_le.mp ht)
      simp [eval_result, h3, ht]
  · have h2 : st.challenge_active = false := Bool.eq_false_iff.mpr ha
    simp [eval_result, verify_inactive_eq st f h2, h2]

/-- On a processed frame the counter becomes exactly `rfc_after`
(increment on a passing combined score, decrement floored at 0
otherwise). -/
theorem eval_rfc_active (st : UserState) (f : FrameInput)
    (ha : st.challenge_active = true)
    (ht : f.now - st.challenge_start_time ≤ CHALLENGE_TIMEOUT) :
    (eval_state st f).real_frame_count = rfc_after st f := by
  rw [eval_state_active_eq st f ha ht]
  split_ifs <;> rfl

/-- One verify_user_liveness call keeps the counter nonnegative and raises
it by at most one. -/
theorem eval_rfc_bound (st : UserState) (f : FrameInput)
    (h0 : 0 ≤ st.real_frame_count) :
    0 ≤ (eval_state st f).real_frame_count ∧
    (eval_state st f).real_frame_count ≤ st.real_frame_count + 1 := by
  by_cases ha : st.challenge_active = true
  · by_cases ht : f.now - st.challenge_start_time ≤ CHALLENGE_TIMEOUT
    · rw [eval_rfc_active st f ha ht]
      unfold rfc_after
      split_ifs
      · constructor <;> omega
      · exact ⟨le_max_left 0 _, max_le (by omega) (by omega)⟩
    · have h3 := verify_timeout_eq st f ha (not_le.mp ht)
      simp only [eval_state, h3]
      exact ⟨h0, by omega⟩
  · have h2 : st.challenge_active = false := Bool.eq_false_iff.mpr ha
    simp only [eval_state, verify_inactive_eq st f h2]
    exact ⟨h0, by omega⟩

/-- Along any run of verify_user_liveness calls the counter stays
nonnegative and gains at most one per call. -/
theorem run_frames_rfc_bound (fs : List FrameInput) (st : UserState)
    (h0 : 0 ≤ st.real_frame_count) :
    0 ≤ (run_frames st fs).real_frame_count ∧
    (run_frames st fs).real_frame_count ≤
      st.real_frame_count + (fs.length : Int) := by
  induction fs generalizing st with
  | nil => simpa [run_frames]
  | cons f fs ih =>
    have hb := eval_rfc_bound st f h0
    have ih2 := ih (eval_state st f) hb.1
    simp only [run_frames, List.foldl_cons] at ih2 ⊢
    refine ⟨ih2.1, ?_⟩
    have := ih2.2
    simp only [List.length_cons]
    push_cast
    omega

/-- The state a non-suppressed start_challenge_for_user call installs
(anti_spoof_detection.py lines 40-47). -/
theorem start_state_eq (st : UserState) (now : ℚ) (pick : Challenge)
    (h : ¬(st.verified = true ∧ now - st.last_verification_time < 30)) :
    start_state st now pick =
      { challenge_active := true
        challenge_start_time := now
        current_challenge := some pick
        previous_positions := []
        real_frame_count := 0
        verified := false
        last_verification_time := st.last_verification_time
        baseline_position := none
        movement_detected := false } := by
  simp [start_state, start_challenge_for_user, h]

/-- Every public operation preserves the exclusion of the two flags. -/
theorem apply_op_flags (st : UserState) (op : Op)
    (h : st.challenge_active = false ∨ st.verified = false) :
    (apply_op st op).challenge_active = false ∨
    (apply_op st op).verified = false := by
  cases op with
  | start now pick =>
      by_cases hs : st.verified = true ∧ now - st.last_verification_time < 30
      · simpa [apply_op, start_challenge_for_user, hs] using h
      · simp [apply_op, start_challenge_for_user, hs]
  | eval f =>
      have he : apply_op st (.eval f) = eval_state st f := rfl
      by_cases ha : st.challenge_active = true
      · by_cases ht : f.now - st.challenge_start_time ≤ CHALLENGE_TIMEOUT
        · rw [he, eval_state_active_eq st f ha ht]
          have hca := (analyze_movement_preserves st f.fb f.now).1
          have hv := (analyze_movement_preserves st f.fb f.now).2.2.2.2.1
          split_ifs
          · left; rfl
          · rcases h with h | h
            · left; simpa [hca]
            · right; simpa [hv]
        · rw [he]
          simp [eval_state, verify_timeout_eq st f ha (not_le.mp ht)]
      · have h2 : st.challenge_active = false := Bool.eq_false_iff.mpr ha
        rw [he]
        simp only [eval_state, verify_inactive_eq st f h2]
        exact Or.inl h2
  | isVer now =>
      have hi : apply_op st (.isVer now) = (is_user_verified st now).2 := rfl
      rw [hi]
      unfold is_user_verified
      split_ifs with h1 h2
      · exact h
      · right; rfl
      · exact h
  | reset => right; rfl

/-- C4: for every reachable per-subject state — under any sequence of
startChallenge, evaluate, isVerified and reset calls from a fresh entry —
challenge_active and verified are never both true when a call returns:
verification closes the challenge in the same step, and starting a
challenge clears verified. -/
theorem active_verified_never_both (ops : List Op) :
    ¬((run_ops ops).challenge_active = true ∧ (run_ops ops).verified = true) := by
  have key : ∀ (l : List Op) (st : UserState),
      (st.challenge_active = false ∨ st.verified = false) →
      ((l.foldl apply_op st).challenge_active = false ∨
       (l.foldl apply_op st).verified = false) := by
    intro l
    induction l with
    | nil => intro st h; simpa
    | cons op l ih => intro st h; simpa using ih _ (apply_op_flags st op h)
  have h := key ops init_state (Or.inl rfl)
  rintro ⟨h1, h2⟩
  rcases h with h | h <;> simp_all [run_ops]

/-- C5: while a subject is verified and within 30 seconds of the last
verification, start_challenge_for_user returns None and leaves the state
untouched, and a second call inside the window does the same. -/
theorem start_challenge_suppressed_twice (st : UserState) (now now2 : ℚ)
    (pick pick2 : Challenge) (hv : st.verified = true)
    (h1 : now - st.last_verification_time < 30)
    (h2 : now2 - st.last_verification_time < 30) :
    start_challenge_for_user st now pick = (none, st) ∧
    start_challenge_for_user (start_challenge_for_user st now pick).2 now2 pick2 =
      (none, st) := by
  have e1 : start_challenge_for_user st now pick = (none, st) := by
    simp [start_challenge_for_user, hv, h1]
  refine ⟨e1, ?_⟩
  rw [e1]
  simp [start_challenge_for_user, hv, h2]

/-- Witness for C5: a freshly verified subject (last verification at time
0) is suppressed at times 5 and 10. -/
theorem start_challenge_suppressed_twice_witness :
    start_challenge_for_user { init_state with verified := true } 5 .TURN_LEFT =
      (none, { init_state with verified := true }) ∧
    start_challenge_for_user
        (start_challenge_for_user { init_state with verified := true } 5 .TURN_LEFT).2
        10 .TURN_RIGHT =
      (none, { init_state with verified := true }) :=
  start_challenge_suppressed_twice { init_state with verified := true } 5 10
    .TURN_LEFT .TURN_RIGHT rfl (by norm_num [init_state]) (by norm_num [init_state])

/-- C6: is_user_verified answers true exactly when the subject is verified
and strictly less than 60 seconds have passed since the verification; at or
past 60 seconds the same read returns false and clears the flag (lazy
expiry at read time). -/
theorem is_user_verified_spec (st : UserState) (now : ℚ) :
    ((is_user_verified st now).1 = true ↔
      st.verified = true ∧ now - st.last_verification_time < 60) ∧
    (st.verified = true → 60 ≤ now - st.last_verification_time →
      is_user_verified st now = (false, { st with verified := false })) := by
  constructor
  · unfold is_user_verified
    split_ifs with h1 h2 <;> simp_all
  · intro hv h
    have hn : ¬(st.verified = true ∧ now - st.last_verification_time < 60) := by
      rintro ⟨_, hlt⟩; linarith
    simp [is_user_verified, hn, hv, h]

/-- C7: after reset_user_verification, is_user_verified answers false, and
a following start_challenge_for_user is not suppressed — it returns the
instruction text of the drawn challenge — whatever the clock values,
because reset cleared the verified flag the 30-second suppression tests. -/
theorem reset_then_unverified_and_start_succeeds (st : UserState)
    (now now2 : ℚ) (pick : Challenge) :
    (is_user_verified (reset_user_verification st) now).1 = false ∧
    (start_challenge_for_user
        (is_user_verified (reset_user_verification st) now).2 now2 pick).1 =
      some (get_challenge_text (some pick)) := by
  have hr : is_user_verified (reset_user_verification st) now =
      (false, reset_user_verification st) := by
    simp [is_user_verified, reset_user_verification]
  rw [hr]
  simp [start_challenge_for_user, reset_user_verification]

/-- C9: the sampling intervals process_frame chooses from the measured FPS
are monotone — a higher measured rate never yields a smaller detection or
verification interval (a faster display loop is sampled no more often). -/
theorem adaptive_freq_monotone (f1 f2 : ℚ) (h : f1 < f2) :
    (process_frame_adaptive_freqs f1).1 ≤ (process_frame_adaptive_freqs f2).1 ∧
    (process_frame_adaptive_freqs f1).2 ≤ (process_frame_adaptive_freqs f2).2 := by
  unfold process_frame_adaptive_freqs
  split_ifs <;> norm_num <;> linarith

/-- Witness for C9: measured 10 FPS samples at least as often (intervals
4 and 2) as measured 35 FPS (intervals 6 and 4). -/
theorem adaptive_freq_monotone_witness :
    (process_frame_adaptive_freqs 10).1 ≤ (process_frame_adaptive_freqs 35).1 ∧
    (process_frame_adaptive_freqs 10).2 ≤ (process_frame_adaptive_freqs 35).2 :=
  adaptive_freq_monotone 10 35 (by norm_num)

/-- C10: on an active challenge older than the 5-second timeout,
verify_user_liveness returns (False, "Challenge timeout - try again", 0.0)
and flips only challenge_active: the counter, the position history, the
baseline, the challenge, the verified flag and the verification time all
survive the timeout. -/
theorem timeout_frame_effect (st : UserState) (f : FrameInput)
    (ha : st.challenge_active = true)
    (ht : CHALLENGE_TIMEOUT < f.now - st.challenge_start_time) :
    verify_user_liveness st f =
      (⟨false, "Challenge timeout - try again", 0⟩,
       { st with challenge_active := false }) :=
  verify_timeout_eq st f ha ht

/-- Witness for C10: a challenge started at time 0 evaluated at time 10. -/
theorem timeout_frame_effect_witness :
    verify_user_liveness { init_state with challenge_active := true }
        ⟨10, ⟨0, 0, 0, 0⟩, 0⟩ =
      (⟨false, "Challenge timeout - try again", 0⟩,
       { { init_state with challenge_active := true } with
           challenge_active := false }) :=
  timeout_frame_effect { init_state with challenge_active := true }
    ⟨10, ⟨0, 0, 0, 0⟩, 0⟩ rfl (by norm_num [init_state, CHALLENGE_TIMEOUT])

/-- C1: on an active, non-timed-out challenge, a verify_user_liveness call
reports verified exactly when the counter, after this frame's update,
has reached 8 and this same frame's movement flag is true; consequently,
after a fresh challenge, eight frames whose combined scores all pass 0.4
but whose eighth frame leaves movement unsatisfied never verify. -/
theorem verify_fires_iff_counter_and_movement :
    (∀ (st : UserState) (f : FrameInput),
        st.challenge_active = true →
        f.now - st.challenge_start_time ≤ CHALLENGE_TIMEOUT →
        ((eval_result st f).verified = true ↔
          (rfc_after st f ≥ CONSECUTIVE_REAL_FRAMES ∧ movement_of st f = true))) ∧
    (∀ (st0 : UserState) (now : ℚ) (pick : Challenge) (fs : List FrameInput),
        ¬(st0.verified = true ∧ now - st0.last_verification_time < 30) →
        fs.length = 8 →
        (∀ (i : ℕ) (h : i < fs.length),
            LIVENESS_SCORE_THRESHOLD ≤
              combined_of (run_frames (start_state st0 now pick) (fs.take i))
                (fs.get ⟨i, h⟩)) →
        (∀ (h7 : 7 < fs.length),
            movement_of (run_frames (start_state st0 now pick) (fs.take 7))
              (fs.get ⟨7, h7⟩) = false) →
        ∀ (i : ℕ) (h : i < fs.length),
          (eval_result (run_frames (start_state st0 now pick) (fs.take i))
            (fs.get ⟨i, h⟩)).verified = false) := by
  constructor
  · intro st f ha ht
    simp [eval_verified_iff, ha, ht, ge_iff_le]
  · intro st0 now pick fs hstart h8 hcomb hmv i hi
    have h1 : (start_state st0 now pick).real_frame_count = 0 := by
      rw [start_state_eq st0 now pick hstart]
    obtain ⟨hnn, hub⟩ :=
      run_frames_rfc_bound (fs.take i) (start_state st0 now pick) (by rw [h1])
    rw [h1] at hub
    have hlen : (fs.take i).length = i := by
      rw [List.length_take]
      omega
    rw [hlen] at hub
    cases hv : (eval_result (run_frames (start_state st0 now pick) (fs.take i))
        (fs.get ⟨i, hi⟩)).verified with
    | false => rfl
    | true =>
      exfalso
      obtain ⟨hact, htim, hcnt, hmov⟩ := (eval_verified_iff _ _).mp hv
      by_cases hi7 : i = 7
      · subst hi7
        rw [hmv hi] at hmov
        exact Bool.false_ne_true hmov
      · have hra : rfc_after (run_frames (start_state st0 now pick) (fs.take i))
            (fs.get ⟨i, hi⟩) ≤
            (run_frames (start_state st0 now pick) (fs.take i)).real_frame_count + 1 := by
          unfold rfc_after
          split_ifs
          · omega
          · exact max_le (by omega) (by omega)
        have hc8 : CONSECUTIVE_REAL_FRAMES = (8 : Int) := rfl
        rw [hc8] at hcnt
        omega

/-- Witness for C1: after a fresh TURN_LEFT challenge, the eighth of eight
frames with texture score 0.7 (combined 0.42 ≥ 0.4) whose centroid never
leaves the baseline does not verify. -/
theorem verify_fires_iff_counter_and_movement_witness :
    (eval_result
        (run_frames (start_state init_state 0 .TURN_LEFT) (wit_frames.take 7))
        (wit_frames.get ⟨7, by norm_num [wit_frames]⟩)).verified = false := by
  have s0 : start_state init_state 0 .TURN_LEFT = wit_state 0 := by
    norm_num [start_state, start_challenge_for_user, init_state, wit_state]
  have e0 : eval_state (wit_state 0) wit_frame = wit_state 1 := by
    norm_num [eval_state, verify_user_liveness, analyze_movement, wit_state, wit_pos,
      wit_frame, CHALLENGE_TIMEOUT, LIVENESS_SCORE_THRESHOLD, CONSECUTIVE_REAL_FRAMES,
      MOTION_THRESHOLD, Int.fdiv, List.replicate]
  have e1 : eval_state (wit_state 1) wit_frame = wit_state 2 := by
    norm_num [eval_state, verify_user_liveness, analyze_movement, wit_state, wit_pos,
      wit_frame, CHALLENGE_TIMEOUT, LIVENESS_SCORE_THRESHOLD, CONSECUTIVE_REAL_FRAMES,
      MOTION_THRESHOLD, Int.fdiv, List.replicate]
  have e2 : eval_state (wit_state 2) wit_frame = wit_state 3 := by
    norm_num [eval_state, verify_user_liveness, analyze_movement, wit_state, wit_pos,
      wit_frame, CHALLENGE_TIMEOUT, LIVENESS_SCORE_THRESHOLD, CONSECUTIVE_REAL_FRAMES,
      MOTION_THRESHOLD, Int.fdiv, List.replicate]
  have e3 : eval_state (wit_state 3) wit_frame = wit_state 4 := by
    norm_num [eval_state, verify_user_liveness, analyze_movement, wit_state, wit_pos,
      wit_frame, CHALLENGE_TIMEOUT, LIVENESS_SCORE_THRESHOLD, CONSECUTIVE_REAL_FRAMES,
      MOTION_THRESHOLD, Int.fdiv, List.replicate]
  have e4 : eval_state (wit_state 4) wit_frame = wit_state 5 := by
    norm_num [eval_state, verify_user_liveness, analyze_movement, wit_state, wit_pos,
      wit_frame, CHALLENGE_TIMEOUT, LIVENESS_SCORE_THRESHOLD, CONSECUTIVE_REAL_FRAMES,
      MOTION_THRESHOLD, Int.fdiv, List.replicate]
  have e5 : eval_state (wit_state 5) wit_frame = wit_state 6 := by
    norm_num [eval_state, verify_user_liveness, analyze_movement, wit_state, wit_pos,
      wit_frame, CHALLENGE_TIMEOUT, LIVENESS_SCORE_THRESHOLD, CONSECUTIVE_REAL_FRAMES,
      MOTION_THRESHOLD, Int.fdiv, List.replicate]
  have e6 : eval_state (wit_state 6) wit_frame = wit_state 7 := by
    norm_num [eval_state, verify_user_liveness, analyze_movement, wit_state, wit_pos,
      wit_frame, CHALLENGE_TIMEOUT, LIVENESS_SCORE_THRESHOLD, CONSECUTIVE_REAL_FRAMES,
      MOTION_THRESHOLD, Int.fdiv, List.replicate]
  have hmv8 : ∀ (h7 : 7 < wit_frames.length),
      movement_of (run_frames (start_state init_state 0 .TURN_LEFT) (wit_frames.take 7))
        (wit_frames.get ⟨7, h7⟩) = false := by
    intro h7
    rw [s0]
    simp only [run_frames, wit_frames, List.take, List.foldl, e0, e1, e2, e3, e4, e5, e6]
    norm_num [movement_of, analyze_movement, wit_state, wit_pos, wit_frame,
      MOTION_THRESHOLD, Int.fdiv, List.get, List.replicate]
  have hcomb : ∀ (i : ℕ) (h : i < wit_frames.length),
      LIVENESS_SCORE_THRESHOLD ≤
        combined_of (run_frames (start_state init_state 0 .TURN_LEFT) (wit_frames.take i))
          (wit_frames.get ⟨i, h⟩) := by
    intro i h
    have h8 : i < 8 := by simpa [wit_frames] using h
    rw [s0]
    interval_cases i <;>
      · simp only [run_frames, wit_frames, List.take, List.foldl, e0, e1, e2, e3, e4, e5, e6]
        norm_num [combined_of, movement_of, analyze_movement, wit_state, wit_pos,
          wit_frame, MOTION_THRESHOLD, LIVENESS_SCORE_THRESHOLD, Int.fdiv, List.get, List.replicate]
  exact verify_fires_iff_counter_and_movement.2 init_state 0 .TURN_LEFT wit_frames
    (by simp [init_state]) (by simp [wit_frames]) hcomb hmv8 7 (by norm_num [wit_frames])

/-- C3: on a processed frame the counter moves by exactly one — up when the
combined score passes 0.4, down (floored at 0) otherwise — and over any
run of evaluate calls after a fresh start_challenge_for_user it stays
nonnegative and never exceeds the number of calls made. -/
theorem real_frame_count_step_and_bounds :
    (∀ (st : UserState) (f : FrameInput),
        st.challenge_active = true →
        f.now - st.challenge_start_time ≤ CHALLENGE_TIMEOUT →
        (eval_state st f).real_frame_count =
          (if combined_of st f ≥ LIVENESS_SCORE_THRESHOLD
           then st.real_frame_count + 1
           else max 0 (st.real_frame_count - 1))) ∧
    (∀ (st0 : UserState) (now : ℚ) (pick : Challenge) (fs : List FrameInput),
        ¬(st0.verified = true ∧ now - st0.last_verification_time < 30) →
        0 ≤ (run_frames (start_state st0 now pick) fs).real_frame_count ∧
        (run_frames (start_state st0 now pick) fs).real_frame_count ≤
          (fs.length : Int)) := by
  constructor
  · intro st f ha ht
    rw [eval_rfc_active st f ha ht]
    rfl
  · intro st0 now pick fs h
    have h1 : (start_state st0 now pick).real_frame_count = 0 := by
      rw [start_state_eq st0 now pick h]
    have hb := run_frames_rfc_bound fs (start_state st0 now pick) (by rw [h1])
    rw [h1] at hb
    exact ⟨hb.1, by simpa using hb.2⟩

/-- Witness for C3: a fresh challenge followed by the eight witness frames
ends with a counter between 0 and 8. -/
theorem real_frame_count_step_and_bounds_witness :
    0 ≤ (run_frames (start_state init_state 0 .TURN_LEFT) wit_frames).real_frame_count ∧
    (run_frames (start_state init_state 0 .TURN_LEFT) wit_frames).real_frame_count ≤ 8 := by
  have h := real_frame_count_step_and_bounds.2 init_state 0 .TURN_LEFT wit_frames
    (by simp [init_state])
  simpa [wit_frames] using h

/-- C8: under a TURN_LEFT challenge with a seeded baseline, once this
frame's appended history holds at least 3 entries (two stored positions or
more), analyze_movement answers true exactly when the current centroid x
is strictly below baseline.x minus the 12-pixel threshold; with a shorter
history, or before the baseline is seeded, it answers false. -/
theorem turn_left_movement_iff (st : UserState) (fb : FaceBox) (now : ℚ)
    (hch : st.current_challenge = some .TURN_LEFT) :
    (∀ b : Pos, st.baseline_position = some b →
        2 ≤ st.previous_positions.length →
        ((analyze_movement st fb now).1 = true ↔
          (fb.b0 + fb.b2).fdiv 2 < b.x - MOTION_THRESHOLD)) ∧
    (∀ b : Pos, st.baseline_position = some b →
        st.previous_positions.length < 2 →
        (analyze_movement st fb now).1 = false) ∧
    (st.baseline_position = none → (analyze_movement st fb now).1 = false) := by
  refine ⟨?_, ?_, ?_⟩
  · intro b hb hlen
    simp only [analyze_movement, hb, hch]
    split_ifs with h10 h3 h4
    · exfalso
      simp at h10 h3
      omega
    · simp
    · exfalso
      simp at h4
      omega
    · simp
  · intro b hb hlen
    simp only [analyze_movement, hb, hch]
    split_ifs with h10 h3 h4
    · rfl
    · exfalso
      simp at h10 h3
      omega
    · rfl
    · exfalso
      simp at h4
      omega
  · intro hb
    simp [analyze_movement, hb]

/-- Witness for C8: baseline x = 300 with three history entries at the
judged frame — a centroid at x = 285 satisfies TURN_LEFT, one at x = 295
does not. -/
theorem turn_left_movement_iff_witness :
    (analyze_movement wit_turn_left_state ⟨280, 0, 290, 10⟩ 2).1 = true ∧
    (analyze_movement wit_turn_left_state ⟨290, 0, 300, 10⟩ 2).1 = false := by
  constructor
  · exact ((turn_left_movement_iff wit_turn_left_state ⟨280, 0, 290, 10⟩ 2 rfl).1
      ⟨300, 20, 1600, 0⟩ rfl (by norm_num [wit_turn_left_state, init_state])).mpr
      (by norm_num [MOTION_THRESHOLD, Int.fdiv])
  · have h := (turn_left_movement_iff wit_turn_left_state ⟨290, 0, 300, 10⟩ 2 rfl).1
      ⟨300, 20, 1600, 0⟩ rfl (by norm_num [wit_turn_left_state, init_state])
    cases hb2 : (analyze_movement wit_turn_left_state ⟨290, 0, 300, 10⟩ 2).1 with
    | false => rfl
    | true => exact absurd (h.mp hb2) (by norm_num [MOTION_THRESHOLD, Int.fdiv])

/-! ## The spoof score (C2) -/

/-- The entropy regularizer pushes the logarithm just above zero: the
base-2 log of 1 + 1e-7 is strictly positive. -/
theorem logb_reg_pos : 0 < Real.logb 2 (1 + 1/10000000) :=
  Real.logb_pos one_lt_two (by norm_num)

/-- The base-2 log of 1 + 1e-7 is below 2e-7. -/
theorem logb_reg_small : Real.logb 2 (1 + 1/10000000) ≤ 2/10000000 := by
  have hlog : Real.log (1 + 1/10000000) ≤ 1/10000000 := by
    have h := Real.log_le_sub_one_of_pos (show (0:ℝ) < 1 + 1/10000000 by norm_num)
    linarith
  have h2 : (0.6931471803 : ℝ) < Real.log 2 := Real.log_two_gt_d9
  rw [Real.logb, div_le_iff₀ (Real.log_pos one_lt_two)]
  linarith

/-- On the all-black histogram the entropy expression collapses to the
single bin-0 term: minus the base-2 log of 1 + 1e-7 (slightly below 0, not
0, because of the regularizer). -/
theorem hist_entropy_all_black :
    hist_entropy all_black_hist = -Real.logb 2 (1 + 1/10000000) := by
  have htot : ∑ j, all_black_hist j = (10000:ℝ) := by
    simp [all_black_hist, Finset.sum_ite_eq']
  unfold hist_entropy
  rw [htot]
  rw [Finset.sum_eq_single (0 : Fin 256)]
  · norm_num [all_black_hist]
  · intro b _ hbne
    simp [all_black_hist, hbne]
  · intro h
    exact absurd (Finset.mem_univ _) h

/-- Counterexample for C2: on the primitive statistics of an all-zero
(all-black) 100 x 100 region — 10000 pixels, Laplacian variance 0, Canny
edge density 0, all histogram mass in bin 0 — detect_photo_spoof does not
return 0.0: the edge term alone contributes 0.3, and the score lands
strictly between 0.29 and 0.3. -/
theorem detect_all_black_not_zero :
    detect_photo_spoof 10000 0 0 all_black_hist ≠ 0 ∧
    29/100 < detect_photo_spoof 10000 0 0 all_black_hist ∧
    detect_photo_spoof 10000 0 0 all_black_hist < 3/10 := by
  have hL := logb_reg_pos
  have hLs := logb_reg_small
  have hm : min (1:ℝ) (-Real.logb 2 (1 + 1/10000000) / 8) =
      -Real.logb 2 (1 + 1/10000000) / 8 := min_eq_right (by linarith)
  have hD : detect_photo_spoof 10000 0 0 all_black_hist =
      3/10 + (-Real.logb 2 (1 + 1/10000000) / 8) * (2/10) := by
    unfold detect_photo_spoof
    rw [if_neg (by norm_num), hist_entropy_all_black, hm]
    norm_num
  rw [hD]
  refine ⟨ne_of_gt ?_, ?_, ?_⟩ <;> linarith

set_option maxRecDepth 4000 in
/-- C2 as amended: the spoof score always lies in [0, 1], and an empty
region returns exactly 0.0.  The all-zero image does not yield 0.0 (see
the counterexample): its score is just below 0.3.  The hypothesis `hconc`
records the one coupling between the cv2 statistics that the lower bound
needs: the entropy term can only dip below zero when a single histogram
bin holds more than 1 - 1e-7 of the mass (every logarithm argument stays
at most 1 otherwise), and a region that concentrated is visually constant,
on which the Canny operator finds next to no edges - certainly a density
below 1/9.  Any bound below (1 - 2e-8)/8 would do; independent statistics
violating this coupling are not realizable by an image. -/
theorem detect_photo_spoof_bounds (size : ℕ) (lapVar edgeDensity : ℝ)
    (hist : Fin 256 → ℝ) (hlap : 0 ≤ lapVar) (hedge : 0 ≤ edgeDensity)
    (hhist : ∀ i, 0 ≤ hist i) (htot : 0 < ∑ j, hist j)
    (hconc : (∃ i, 1 - 1/10000000 < hist i / ∑ j, hist j) → edgeDensity ≤ 1/9) :
    detect_photo_spoof size lapVar edgeDensity hist ≤ 1 ∧
    0 ≤ detect_photo_spoof size lapVar edgeDensity hist ∧
    (size = 0 → detect_photo_spoof size lapVar edgeDensity hist = 0) := by
  by_cases hs : size = 0
  · have h0 : detect_photo_spoof size lapVar edgeDensity hist = 0 := by
      simp [detect_photo_spoof, hs]
    rw [h0]
    norm_num
  · have hsum1 : ∑ i, hist i / (∑ j, hist j) = 1 := by
      rw [← Finset.sum_div]
      exact div_self (ne_of_gt htot)
    have hHlb : -Real.logb 2 (1 + 1/10000000) ≤ hist_entropy hist := by
      unfold hist_entropy
      have key : ∑ i, (hist i / ∑ j, hist j) *
          Real.logb 2 (hist i / ∑ j, hist j + 1/10000000) ≤
          Real.logb 2 (1 + 1/10000000) := by
        have hstep : ∀ i ∈ Finset.univ, (hist i / ∑ j, hist j) *
            Real.logb 2 (hist i / ∑ j, hist j + 1/10000000) ≤
            (hist i / ∑ j, hist j) * Real.logb 2 (1 + 1/10000000) := by
          intro i _
          have hpi : 0 ≤ hist i / ∑ j, hist j := div_nonneg (hhist i) htot.le
          have hp1 : hist i / ∑ j, hist j ≤ 1 := by
            rw [div_le_one htot]
            exact Finset.single_le_sum (fun j _ => hhist j) (Finset.mem_univ i)
          apply mul_le_mul_of_nonneg_left _ hpi
          apply Real.logb_le_logb_of_le one_lt_two
          · linarith
          · linarith
        calc ∑ i, (hist i / ∑ j, hist j) *
              Real.logb 2 (hist i / ∑ j, hist j + 1/10000000)
            ≤ ∑ i, (hist i / ∑ j, hist j) * Real.logb 2 (1 + 1/10000000) :=
              Finset.sum_le_sum hstep
          _ = (∑ i, hist i / ∑ j, hist j) * Real.logb 2 (1 + 1/10000000) := by
              rw [← Finset.sum_mul]
          _ = Real.logb 2 (1 + 1/10000000) := by rw [hsum1, one_mul]
      linarith
    have ht1 : min (1:ℝ) (lapVar / 200) ≤ 1 := min_le_left _ _
    have ht0 : (0:ℝ) ≤ min 1 (lapVar / 200) := le_min zero_le_one (by positivity)
    have hm8 : (0:ℝ) ≤ min 1 (edgeDensity * 8) := le_min zero_le_one (by positivity)
    have hm8b : min (1:ℝ) (edgeDensity * 8) ≤ 1 := min_le_left _ _
    have hent1 : min (1:ℝ) (hist_entropy hist / 8) ≤ 1 := min_le_left _ _
    have hentlb : -Real.logb 2 (1 + 1/10000000) / 8 ≤
        min 1 (hist_entropy hist / 8) := by
      refine le_min ?_ ?_
      · linarith [logb_reg_pos]
      · linarith
    have hLs := logb_reg_small
    have hL0 := logb_reg_pos
    unfold detect_photo_spoof
    rw [if_neg hs]
    set t := min (1:ℝ) (lapVar / 200) with hTdef
    set e := min (1:ℝ) (edgeDensity * 8) with hEdef
    set ent := min (1:ℝ) (hist_entropy hist / 8) with hEntdef
    refine ⟨?_, ?_, fun h => absurd h hs⟩
    · linarith
    · by_cases hc : ∃ i, 1 - 1/10000000 < hist i / ∑ j, hist j
      · have hd : edgeDensity ≤ 1/9 := hconc hc
        have h89 : e ≤ 8/9 := by
          rw [hEdef]
          exact min_le_of_right_le (by linarith)
        linarith
      · push_neg at hc
        have hH : 0 ≤ hist_entropy hist := by
          unfold hist_entropy
          rw [neg_nonneg]
          apply Finset.sum_nonpos
          intro i _
          have hpi : 0 ≤ hist i / ∑ j, hist j := div_nonneg (hhist i) htot.le
          have hle := hc i
          exact mul_nonpos_of_nonneg_of_nonpos hpi
            (Real.logb_nonpos one_lt_two (by linarith) (by linarith))
        have hent00 : (0:ℝ) ≤ ent := by
          rw [hEntdef]
          exact le_min (by norm_num) (by linarith)
        linarith

/-- Witness for the amended C2: an empty region with benign statistics (a
uniform histogram, far from concentrated) scores exactly 0.0. -/
theorem detect_photo_spoof_bounds_witness :
    detect_photo_spoof 0 0 0 (fun _ => 1) = 0 :=
  (detect_photo_spoof_bounds 0 0 0 (fun _ => 1) le_rfl le_rfl (fun _ => zero_le_one)
    (by positivity) (fun _ => by norm_num)).2.2 rfl

end AntiSpoof
